import Mathlib

/-!
Shallow embedding of the ContextFlow prototype (React PDF-selection frontend
plus Express backend) for verification of its specification claims.

Frontend (src/unnamed/part_000): geometric selection math (`normalizeRect`),
viewport-relative screenshot cropping (`cropScreenshotFromScrollContainer`),
and the per-column chat state machine of `askInColumn` with its
out-of-order-response counter guard (`reqSeqRef`).

Backend (src/server/index.js): the two route handlers POST /api/explain and
POST /api/chat, modelled as pure functions from the (already body-parsed)
request fields to either an early HTTP response or the request sent to the
model API, plus the pure post-processing of the model's `output_text`
(JSON-parse result abstracted as an `Option Json` oracle argument, since the
embedding does not re-implement a JSON text parser).

JS numbers are modelled as `Rat`; browser-environment effects (canvas 2D
context acquisition, PNG encoding, the network) are outside the embedding:
the crop function returns the crop-source rectangle and output-canvas size it
would draw, the 2D context being modelled as always available.
-/

/-! ## Geometry: `normalizeRect` (part_000 lines 11-19) -/

/-- Model of the JS builtin `String.prototype.trim` (called at part_000 line
270 and index.js line 52): strip leading and trailing whitespace. Written with
structural recursion so that it evaluates inside the kernel (Lean's own
`String.trim` is well-founded-recursive and does not). -/
def jsTrim (s : String) : String :=
  ⟨((s.data.dropWhile Char.isWhitespace).reverse.dropWhile Char.isWhitespace).reverse⟩

structure Pt where
  x : Rat
  y : Rat
deriving DecidableEq, Repr

structure Rect where
  x : Rat
  y : Rat
  w : Rat
  h : Rat
deriving DecidableEq, Repr

def normalizeRect (a b : Pt) : Rect :=
  { x := min a.x b.x
    y := min a.y b.y
    w := |a.x - b.x|
    h := |a.y - b.y| }

/-! ## Screenshot crop (part_000 lines 84-119) -/

/-- Scroll-container geometry read from the DOM element `el`. -/
structure ScrollEl where
  scrollLeft : Rat
  scrollTop : Rat
  clientWidth : Rat
  clientHeight : Rat
deriving DecidableEq, Repr

/-- Source rectangle and output-canvas size of the `drawImage` call that
`cropScreenshotFromScrollContainer` performs (lines 106-117). -/
structure CropResult where
  sx : Rat
  sy : Rat
  sw : Rat
  sh : Rat
  outW : Int
  outH : Int
deriving DecidableEq, Repr

/-- `const dpr = window.devicePixelRatio || 1` (line 97): a falsy
devicePixelRatio (0) defaults to 1. -/
def effDpr (devicePixelRatio : Rat) : Rat :=
  if devicePixelRatio = 0 then 1 else devicePixelRatio

/-- The guard of line 102: the selection is entirely outside the visible
viewport. -/
def outsideViewport (el : ScrollEl) (rect : Rect) : Prop :=
  rect.x - el.scrollLeft + rect.w < 0 ∨ rect.y - el.scrollTop + rect.h < 0 ∨
  rect.x - el.scrollLeft > el.clientWidth ∨ rect.y - el.scrollTop > el.clientHeight

instance (el : ScrollEl) (rect : Rect) : Decidable (outsideViewport el rect) := by
  unfold outsideViewport
  infer_instance

/-- Lines 97-118 of part_000. The captured canvas, 2D context and PNG data-URL
encoding are environmental; the embedding returns the crop arithmetic
(`.ok` models returning a data URL, `.error` a thrown Error message). -/
def cropScreenshotFromScrollContainer (el : ScrollEl) (rect : Rect)
    (devicePixelRatio : Rat) : Except String CropResult :=
  let dpr := effDpr devicePixelRatio
  let vx := rect.x - el.scrollLeft
  let vy := rect.y - el.scrollTop
  if outsideViewport el rect then
    .error "Selection is outside the visible area. Scroll to the region and try again."
  else
    let sx := max 0 vx * dpr
    let sy := max 0 vy * dpr
    let sw := min rect.w (el.clientWidth - vx) * dpr
    let sh := min rect.h (el.clientHeight - vy) * dpr
    .ok { sx := sx, sy := sy, sw := sw, sh := sh
          outW := max 1 ⌊sw⌋, outH := max 1 ⌊sh⌋ }

/-! ## Column chat state machine (part_000 lines 60-78, 170-172, 268-328) -/

inductive Role where
  | user
  | assistant
deriving DecidableEq, Repr

structure ChatMsg where
  role : Role
  text : String
deriving DecidableEq, Repr

structure Column where
  id : String
  title : String
  contextBase : String
  chat : List ChatMsg
  input : String
  loading : Bool
deriving DecidableEq, Repr

/-- The component state relevant to `askInColumn`: the `columns` array and the
request counter `reqSeqRef.current` (line 172). -/
structure AppState where
  columns : List Column
  reqSeq : Nat
deriving DecidableEq, Repr

/-- Synchronous phase of `askInColumn` (lines 268-291): trim the input,
bail out when blank, apply the optimistic update, increment `reqSeqRef`,
snapshot the targeted column from the render-time `columns`. Returns the new
state and `some myReq` when a fetch is actually issued (`none` when blank or
the snapshot is missing; the missing-snapshot branch resets `loading`). -/
def issueRequest (s : AppState) (colId text : String) : AppState × Option Nat :=
  let q := jsTrim text
  if q = "" then (s, none)
  else
    let cols1 := s.columns.map fun c =>
      if c.id = colId then
        { c with chat := c.chat ++ [{ role := .user, text := q }], input := "", loading := true }
      else c
    let myReq := s.reqSeq + 1
    match s.columns.find? (fun c => c.id == colId) with
    | none =>
        (⟨cols1.map fun c => if c.id = colId then { c with loading := false } else c, myReq⟩, none)
    | some _ => (⟨cols1, myReq⟩, some myReq)

/-- `String(data.answer || "").replace(/\\n/g, "\n")` (line 315): replace each
literal backslash-n two-character sequence by a newline. -/
def cleanAnswer (answer : String) : String :=
  answer.replace "\\n" "\n"

/-- Response-arrival phase of `askInColumn` on fetch success (lines 313-323):
discard the response when the captured counter no longer equals the current
one; otherwise append the assistant message and clear `loading`. -/
def handleResponse (s : AppState) (colId : String) (myReq : Nat) (answer : String) : AppState :=
  if myReq ≠ s.reqSeq then s
  else
    ⟨s.columns.map fun c =>
        if c.id = colId then
          { c with chat := c.chat ++ [{ role := .assistant, text := cleanAnswer answer }]
                   loading := false }
        else c,
      s.reqSeq⟩

/-- Catch branch of `askInColumn` (lines 324-327): reset `loading` on the
targeted column. -/
def handleFailure (s : AppState) (colId : String) : AppState :=
  ⟨s.columns.map fun c => if c.id = colId then { c with loading := false } else c, s.reqSeq⟩

/-- Interleavable events acting on the component state: a new `askInColumn`
call, a fetch success arrival, a fetch failure arrival. -/
inductive Op where
  | ask (colId text : String)
  | respond (colId : String) (myReq : Nat) (answer : String)
  | fail (colId : String)

def stepOp (s : AppState) : Op → AppState
  | .ask colId text => (issueRequest s colId text).1
  | .respond colId myReq answer => handleResponse s colId myReq answer
  | .fail colId => handleFailure s colId

def applyOps (s : AppState) (ops : List Op) : AppState :=
  ops.foldl stepOp s

/-- Relation used to state per-column isolation: a column evolves into `c'`
without touching other columns' data and without touching `title` or
`contextBase`. -/
def colPreserved (colId : String) (c c' : Column) : Prop :=
  (c.id ≠ colId → c' = c) ∧ c'.title = c.title ∧ c'.contextBase = c.contextBase

/-! ## Backend: JSON values, responses and the two route handlers
(src/server/index.js) -/

inductive Json where
  | null
  | bool (b : Bool)
  | num (q : Rat)
  | str (s : String)
  | arr (elems : List Json)
  | obj (fields : List (String × Json))

/-- An HTTP response as produced by `res.status(...).json(...)` /
`res.json(...)`. -/
structure HttpResponse where
  status : Nat
  body : Json

/-- First field value bound to key `k` in a JSON object's field list. -/
def lookupField (fields : List (String × Json)) (k : String) : Option Json :=
  (fields.find? fun p => p.1 == k).map Prod.snd

def isStringJson : Json → Bool
  | .str _ => true
  | _ => false

def isNumberJson : Json → Bool
  | .num _ => true
  | _ => false

def isStringArrayJson : Json → Bool
  | .arr elems => elems.all isStringJson
  | _ => false

/-- The fixed response schema of /api/explain (index.js lines 84-102), as the
JSON value passed to the model API under `text.format.schema`. -/
def explainSchemaJson : Json :=
  .obj [("type", .str "object"),
        ("additionalProperties", .bool false),
        ("properties", .obj
          [("category", .obj [("type", .str "string")]),
           ("confidence", .obj [("type", .str "number")]),
           ("summary", .obj [("type", .str "string")]),
           ("followups", .obj [("type", .str "array"),
                               ("items", .obj [("type", .str "string")])])]),
        ("required", .arr [.str "category", .str "confidence", .str "summary", .str "followups"])]

/-- The fixed response schema of /api/chat (index.js lines 187-198). -/
def chatSchemaJson : Json :=
  .obj [("type", .str "object"),
        ("additionalProperties", .bool false),
        ("properties", .obj
          [("answer", .obj [("type", .str "string")]),
           ("followups", .obj [("type", .str "array"),
                               ("items", .obj [("type", .str "string")])])]),
        ("required", .arr [.str "answer", .str "followups"])]

/-- Semantics of the /api/explain schema (lines 84-102): an object whose keys
all lie in the four declared properties (`additionalProperties: false`), with
all four required and of the declared types. -/
def matchesExplainSchema : Json → Bool
  | .obj fields =>
      (fields.all fun p =>
        p.1 == "category" || p.1 == "confidence" || p.1 == "summary" || p.1 == "followups") &&
      ((lookupField fields "category").map isStringJson).getD false &&
      ((lookupField fields "confidence").map isNumberJson).getD false &&
      ((lookupField fields "summary").map isStringJson).getD false &&
      ((lookupField fields "followups").map isStringArrayJson).getD false
  | _ => false

/-- Semantics of the /api/chat schema (lines 187-198). -/
def matchesChatSchema : Json → Bool
  | .obj fields =>
      (fields.all fun p => p.1 == "answer" || p.1 == "followups") &&
      ((lookupField fields "answer").map isStringJson).getD false &&
      ((lookupField fields "followups").map isStringArrayJson).getD false
  | _ => false

/-- Fixed system prompt of /api/explain (index.js lines 54-62). -/
def explainSystemPrompt : String :=
  "You are an intelligent screen analysis assistant.\n\n" ++
  "Your task:\n" ++
  "1. Identify what type of task or domain the screenshot represents.\n" ++
  "2. Provide a clear and useful explanation.\n" ++
  "3. If information is insufficient, provide at most 3 essential follow-up questions.\n\n" ++
  "Category must be one of:\n" ++
  "[math, code, writing, translation, finance, science, general]\n\n" ++
  "Output must strictly follow the JSON schema."

/-- `const userInstruction = (instruction || "").toString().trim()` (line 52):
a missing / non-string / falsy instruction is modelled as `none`. -/
def userInstructionOf (instruction : Option String) : String :=
  jsTrim (instruction.getD "")

/-- Text part of the model request of /api/explain (lines 64-75):
`systemPrompt + extraInstruction`. -/
def explainPromptText (instruction : Option String) : String :=
  let u := userInstructionOf instruction
  explainSystemPrompt ++
    (if u.length > 0 then "\n\nAdditional user instruction:\n" ++ u else "")

/-- The request /api/explain sends to the model API (lines 69-105). -/
structure ExplainRequest where
  model : String
  text : String
  imageUrl : String
  schemaName : String
  schema : Json

def explainRequest (imageDataUrl : String) (instruction : Option String) : ExplainRequest :=
  { model := "gpt-4.1-mini"
    text := explainPromptText instruction
    imageUrl := imageDataUrl
    schemaName := "ScreenAssistResponse"
    schema := explainSchemaJson }

/-- History entry as it arrives in the /api/chat body: each of `m?.role` and
`m?.text` may be absent or a non-string (`none`). -/
structure HistEntry where
  role? : Option String
  text? : Option String
deriving DecidableEq, Repr

/-- One message of the model-API `input` array. -/
structure Turn where
  role : Role
  content : String
deriving DecidableEq, Repr

/-- Per-entry coercion of index.js lines 161-164: role is `assistant` exactly
when the incoming role is the string "assistant", content is
`String(m?.text || "")`. -/
def coerceTurn (m : HistEntry) : Turn :=
  { role := if m.role? = some "assistant" then .assistant else .user
    content := m.text?.getD "" }

/-- `safeHistory.slice(-30)` (lines 158-161): a non-array or missing history
is `none`; keep the last 30 entries. -/
def truncHistory (history : Option (List HistEntry)) : List HistEntry :=
  let safe := history.getD []
  safe.drop (safe.length - 30)

def chatTurns (history : Option (List HistEntry)) : List Turn :=
  (truncHistory history).map coerceTurn

/-- The `input` array sent to the model by /api/chat (line 182):
`[...turns, { role: "user", content: question }]`. -/
def chatInputList (history : Option (List HistEntry)) (question : String) : List Turn :=
  chatTurns history ++ [{ role := .user, content := question }]

/-- System prompt of /api/chat (lines 166-177), embedding the context. -/
def chatSystemPrompt (context : String) : String :=
  "You are a helpful general-purpose assistant.\n\n" ++
  "You will receive:\n" ++
  "- Recognized material from a screenshot\n" ++
  "- Conversation history\n\n" ++
  "Requirements:\n" ++
  "- Maintain conversational continuity.\n" ++
  "- Build upon previous answers instead of restarting.\n" ++
  "- Use the screenshot material when relevant.\n" ++
  "- If the user's question is unrelated to the screenshot, answer it normally as a general assistant.\n" ++
  "- If information is insufficient, say what is missing and provide at most 2 follow-up questions.\n\n" ++
  "[Screenshot Material]\n" ++ context ++ "\n"

/-- The request /api/chat sends to the model API (lines 179-201). -/
structure ChatRequest where
  model : String
  instructions : String
  input : List Turn
  schemaName : String
  schema : Json

def chatRequest (context question : String) (history : Option (List HistEntry)) : ChatRequest :=
  { model := "gpt-4.1-mini"
    instructions := chatSystemPrompt context
    input := chatInputList history question
    schemaName := "ChatResponse"
    schema := chatSchemaJson }

/-- Outcome of the validation phase of a handler: an early HTTP error
response sent without calling the model API, or the model-API call. -/
inductive HandlerOutcome (α : Type) where
  | earlyResponse (status : Nat) (error : String)
  | modelCall (req : α)

/-- Validation phase of /api/explain (index.js lines 40-105). A missing or
non-string `imageDataUrl` is `none`; `!imageDataUrl` also rejects the falsy
empty string. -/
def explainHandler (imageDataUrl : Option String) (instruction : Option String) :
    HandlerOutcome ExplainRequest :=
  match imageDataUrl with
  | none => .earlyResponse 400 "imageDataUrl is required"
  | some s =>
      if s = "" then .earlyResponse 400 "imageDataUrl is required"
      else if ¬ s.startsWith "data:image/" then
        .earlyResponse 400
          "imageDataUrl must be a valid base64 data URL (e.g. data:image/png;base64,...)"
      else .modelCall (explainRequest s instruction)

/-- Validation phase of /api/chat (index.js lines 148-201). Missing, falsy or
non-string `context` / `question` are `none` or `some ""`. -/
def chatHandler (context question : Option String) (history : Option (List HistEntry)) :
    HandlerOutcome ChatRequest :=
  match context with
  | none => .earlyResponse 400 "context is required"
  | some ctx =>
      if ctx = "" then .earlyResponse 400 "context is required"
      else
        match question with
        | none => .earlyResponse 400 "question is required"
        | some q =>
            if q = "" then .earlyResponse 400 "question is required"
            else .modelCall (chatRequest ctx q history)

/-- The 502 body `{ error: "Model did not return valid JSON", raw: jsonText }`
(lines 113-116 and 209-212). -/
def modelErrorBody (raw : String) : Json :=
  .obj [("error", .str "Model did not return valid JSON"), ("raw", .str raw)]

/-- Post-processing of the model's `output_text` in /api/explain (lines
107-119): `parseResult` is the outcome of `JSON.parse jsonText` (`none` on a
parse exception), `raw` is `jsonText` itself. -/
def explainRespond (parseResult : Option Json) (raw : String) : HttpResponse :=
  match parseResult with
  | none => { status := 502, body := modelErrorBody raw }
  | some parsed => { status := 200, body := parsed }

/-- Post-processing of the model's `output_text` in /api/chat (lines 203-215),
identical in shape to /api/explain. -/
def chatRespond (parseResult : Option Json) (raw : String) : HttpResponse :=
  match parseResult with
  | none => { status := 502, body := modelErrorBody raw }
  | some parsed => { status := 200, body := parsed }

/-! ## Helper lemmas -/

theorem issueRequest_reqSeq (s : AppState) (colId text : String) :
    (issueRequest s colId text).1.reqSeq =
      if jsTrim text = "" then s.reqSeq else s.reqSeq + 1 := by
  simp only [issueRequest]
  split
  · rfl
  · split <;> rfl

theorem handleResponse_reqSeq (s : AppState) (colId : String) (myReq : Nat) (answer : String) :
    (handleResponse s colId myReq answer).reqSeq = s.reqSeq := by
  simp only [handleResponse]
  split <;> rfl

theorem reqSeq_le_stepOp (s : AppState) (op : Op) : s.reqSeq ≤ (stepOp s op).reqSeq := by
  cases op with
  | ask colId text =>
      simp only [stepOp]
      rw [issueRequest_reqSeq]
      split <;> omega
  | respond colId myReq answer =>
      simp only [stepOp]
      rw [handleResponse_reqSeq]
  | fail colId => exact le_refl _

theorem reqSeq_le_applyOps (s : AppState) (ops : List Op) :
    s.reqSeq ≤ (applyOps s ops).reqSeq := by
  induction ops generalizing s with
  | nil => exact le_refl _
  | cons op ops ih =>
      calc s.reqSeq ≤ (stepOp s op).reqSeq := reqSeq_le_stepOp s op
        _ ≤ (applyOps (stepOp s op) ops).reqSeq := ih (stepOp s op)

theorem handleResponse_stale (s : AppState) (colId : String) (myReq : Nat) (answer : String)
    (h : myReq ≠ s.reqSeq) : handleResponse s colId myReq answer = s := by
  simp only [handleResponse]
  rw [if_pos h]

theorem colPreserved_refl (colId : String) (c : Column) : colPreserved colId c c :=
  ⟨fun _ => rfl, rfl, rfl⟩

theorem colPreserved_trans (colId : String) (c₁ c₂ c₃ : Column)
    (h₁ : colPreserved colId c₁ c₂) (h₂ : colPreserved colId c₂ c₃) :
    colPreserved colId c₁ c₃ := by
  obtain ⟨e₁, t₁, b₁⟩ := h₁
  obtain ⟨e₂, t₂, b₂⟩ := h₂
  refine ⟨fun hne => ?_, t₂.trans t₁, b₂.trans b₁⟩
  have h12 : c₂ = c₁ := e₁ hne
  have h23 : c₃ = c₂ := e₂ (by rw [h12]; exact hne)
  rw [h23, h12]

theorem forall2_map_self {R : Column → Column → Prop} (f : Column → Column)
    (l : List Column) (h : ∀ c, R c (f c)) : List.Forall₂ R l (l.map f) := by
  induction l with
  | nil => exact .nil
  | cons c l ih => exact .cons (h c) ih

theorem forall2_colPreserved_refl (colId : String) (l : List Column) :
    List.Forall₂ (colPreserved colId) l l := by
  induction l with
  | nil => exact .nil
  | cons c l ih => exact .cons (colPreserved_refl colId c) ih

theorem forall2_colPreserved_comp (colId : String) (l₁ l₂ l₃ : List Column)
    (h₁ : List.Forall₂ (colPreserved colId) l₁ l₂)
    (h₂ : List.Forall₂ (colPreserved colId) l₂ l₃) :
    List.Forall₂ (colPreserved colId) l₁ l₃ := by
  induction h₁ generalizing l₃ with
  | nil => cases h₂; exact .nil
  | cons hR hF ih =>
      cases h₂ with
      | cons hR' hF' => exact .cons (colPreserved_trans _ _ _ _ hR hR') (ih _ hF')

theorem colPreserved_of_ite (colId : String) (upd : Column → Column)
    (ht : ∀ c, (upd c).title = c.title) (hc : ∀ c, (upd c).contextBase = c.contextBase)
    (c : Column) : colPreserved colId c (if c.id = colId then upd c else c) := by
  by_cases h : c.id = colId
  · rw [if_pos h]
    exact ⟨fun hne => absurd h hne, ht c, hc c⟩
  · rw [if_neg h]
    exact colPreserved_refl colId c

theorem forall2_ite_map (colId : String) (l : List Column) (upd : Column → Column)
    (ht : ∀ c, (upd c).title = c.title) (hc : ∀ c, (upd c).contextBase = c.contextBase) :
    List.Forall₂ (colPreserved colId) l
      (l.map fun c => if c.id = colId then upd c else c) :=
  forall2_map_self _ l (colPreserved_of_ite colId upd ht hc)

/-! ## Claim theorems -/

/-- C10: drag-direction independence of the selection rectangle:
`normalizeRect a b = normalizeRect b a`, the result's origin is the
componentwise minimum, its dimensions are the absolute coordinate
differences, and both dimensions are non-negative. -/
theorem normalizeRect_comm_wellformed :
    ∀ a b : Pt,
      normalizeRect a b = normalizeRect b a ∧
      (normalizeRect a b).x = min a.x b.x ∧
      (normalizeRect a b).y = min a.y b.y ∧
      (normalizeRect a b).w = |a.x - b.x| ∧
      (normalizeRect a b).h = |a.y - b.y| ∧
      0 ≤ (normalizeRect a b).w ∧ 0 ≤ (normalizeRect a b).h := by
  intro a b
  refine ⟨?_, rfl, rfl, rfl, rfl, abs_nonneg _, abs_nonneg _⟩
  simp [normalizeRect, min_comm, abs_sub_comm]

/-- C2: for every selection rectangle (non-negative dimensions, as produced by
`normalizeRect`) lying fully inside the visible viewport after subtracting the
scroll offsets, `cropScreenshotFromScrollContainer` throws no error and crops
at source position `((rect.x - scrollLeft) * dpr, (rect.y - scrollTop) * dpr)`
with source size `(rect.w * dpr, rect.h * dpr)`, where `dpr` is the device
pixel ratio defaulting to 1. -/
theorem crop_inside_viewport (el : ScrollEl) (rect : Rect) (devicePixelRatio : Rat)
    (hw : 0 ≤ rect.w) (hh : 0 ≤ rect.h)
    (h1 : 0 ≤ rect.x - el.scrollLeft) (h2 : 0 ≤ rect.y - el.scrollTop)
    (h3 : rect.x - el.scrollLeft + rect.w ≤ el.clientWidth)
    (h4 : rect.y - el.scrollTop + rect.h ≤ el.clientHeight) :
    ∃ c : CropResult,
      cropScreenshotFromScrollContainer el rect devicePixelRatio = .ok c ∧
      c.sx = (rect.x - el.scrollLeft) * effDpr devicePixelRatio ∧
      c.sy = (rect.y - el.scrollTop) * effDpr devicePixelRatio ∧
      c.sw = rect.w * effDpr devicePixelRatio ∧
      c.sh = rect.h * effDpr devicePixelRatio := by
  have hout : ¬ outsideViewport el rect := by
    unfold outsideViewport
    push_neg
    refine ⟨by linarith, by linarith, by linarith, by linarith⟩
  have hx : max 0 (rect.x - el.scrollLeft) = rect.x - el.scrollLeft := max_eq_right h1
  have hy : max 0 (rect.y - el.scrollTop) = rect.y - el.scrollTop := max_eq_right h2
  have hwmin : min rect.w (el.clientWidth - (rect.x - el.scrollLeft)) = rect.w :=
    min_eq_left (by linarith)
  have hhmin : min rect.h (el.clientHeight - (rect.y - el.scrollTop)) = rect.h :=
    min_eq_left (by linarith)
  simp only [cropScreenshotFromScrollContainer]
  rw [if_neg hout]
  exact ⟨_, rfl, by simp [hx], by simp [hy], by simp [hwmin], by simp [hhmin]⟩

/-- Witness for C2 at a concrete viewport and selection. -/
theorem crop_inside_viewport_witness :
    ∃ c : CropResult,
      cropScreenshotFromScrollContainer ⟨0, 0, 100, 100⟩ ⟨10, 10, 20, 20⟩ 2 = .ok c ∧
      c.sx = ((10 : Rat) - 0) * effDpr 2 ∧
      c.sy = ((10 : Rat) - 0) * effDpr 2 ∧
      c.sw = (20 : Rat) * effDpr 2 ∧
      c.sh = (20 : Rat) * effDpr 2 :=
  crop_inside_viewport ⟨0, 0, 100, 100⟩ ⟨10, 10, 20, 20⟩ 2
    (by norm_num) (by norm_num) (by norm_num) (by norm_num) (by norm_num) (by norm_num)

/-- C5: `cropScreenshotFromScrollContainer` throws exactly the
outside-visible-area error if and only if the guard condition of line 102
holds; otherwise (for a non-negative device pixel ratio) it produces an image
whose crop-source top-left coordinates are clamped to be non-negative. -/
theorem crop_outside_error_iff :
    ∀ (el : ScrollEl) (rect : Rect) (devicePixelRatio : Rat),
      (cropScreenshotFromScrollContainer el rect devicePixelRatio =
          .error "Selection is outside the visible area. Scroll to the region and try again."
        ↔ outsideViewport el rect) ∧
      (0 ≤ devicePixelRatio → ¬ outsideViewport el rect →
        ∃ c : CropResult,
          cropScreenshotFromScrollContainer el rect devicePixelRatio = .ok c ∧
          0 ≤ c.sx ∧ 0 ≤ c.sy) := by
  intro el rect d
  constructor
  · constructor
    · intro h
      by_contra hout
      simp only [cropScreenshotFromScrollContainer] at h
      rw [if_neg hout] at h
      exact Except.noConfusion h
    · intro hout
      simp only [cropScreenshotFromScrollContainer]
      rw [if_pos hout]
  · intro hd hout
    have hdpr : 0 ≤ effDpr d := by
      unfold effDpr
      split
      · norm_num
      · exact hd
    simp only [cropScreenshotFromScrollContainer]
    rw [if_neg hout]
    refine ⟨_, rfl, ?_, ?_⟩
    · exact mul_nonneg (le_max_left 0 _) hdpr
    · exact mul_nonneg (le_max_left 0 _) hdpr

/-- Witness for C5: a selection scrolled out of view on the right is rejected
with the exact error message, and an in-view selection crops at non-negative
source coordinates. -/
theorem crop_outside_error_iff_witness :
    (cropScreenshotFromScrollContainer ⟨0, 0, 100, 100⟩ ⟨200, 0, 10, 10⟩ 1 =
        .error "Selection is outside the visible area. Scroll to the region and try again.") ∧
    (∃ c : CropResult,
      cropScreenshotFromScrollContainer ⟨0, 0, 100, 100⟩ ⟨5, 5, 10, 10⟩ 1 = .ok c ∧
      0 ≤ c.sx ∧ 0 ≤ c.sy) :=
  ⟨(crop_outside_error_iff ⟨0, 0, 100, 100⟩ ⟨200, 0, 10, 10⟩ 1).1.mpr
      (by norm_num [outsideViewport]),
   (crop_outside_error_iff ⟨0, 0, 100, 100⟩ ⟨5, 5, 10, 10⟩ 1).2 (by norm_num)
      (by norm_num [outsideViewport])⟩

/-- C1: the request counter is strictly incremented by every `askInColumn`
call with non-blank input (hence monotonically non-decreasing under any
interleaving of events), a completed response mutates the state only when its
captured counter still equals the current one, and any response whose capture
predates a later non-blank request — followed by arbitrary further events —
is discarded without modifying any column. -/
theorem out_of_order_guard :
    (∀ (s : AppState) (colId text : String), jsTrim text ≠ "" →
        (issueRequest s colId text).1.reqSeq = s.reqSeq + 1) ∧
    (∀ (s : AppState) (ops : List Op), s.reqSeq ≤ (applyOps s ops).reqSeq) ∧
    (∀ (s : AppState) (colId : String) (myReq : Nat) (answer : String),
        myReq ≠ s.reqSeq → handleResponse s colId myReq answer = s) ∧
    (∀ (s : AppState) (colId text : String) (ops : List Op)
        (myReq : Nat) (colId2 answer : String),
        jsTrim text ≠ "" → myReq ≤ s.reqSeq →
        handleResponse (applyOps (issueRequest s colId text).1 ops) colId2 myReq answer =
          applyOps (issueRequest s colId text).1 ops) := by
  have hinc : ∀ (s : AppState) (colId text : String), jsTrim text ≠ "" →
      (issueRequest s colId text).1.reqSeq = s.reqSeq + 1 := by
    intro s colId text h
    rw [issueRequest_reqSeq, if_neg h]
  refine ⟨hinc, reqSeq_le_applyOps, handleResponse_stale, ?_⟩
  intro s colId text ops myReq colId2 answer hblank hle
  apply handleResponse_stale
  have h1 : (issueRequest s colId text).1.reqSeq = s.reqSeq + 1 := hinc s colId text hblank
  have h2 := reqSeq_le_applyOps (issueRequest s colId text).1 ops
  omega

/-- Witness for C1: a response captured at counter 0 that arrives after a
fresh request has bumped the counter leaves the state untouched. -/
theorem out_of_order_guard_witness :
    handleResponse (applyOps (issueRequest ⟨[], 0⟩ "a" "hi").1 []) "a" 0 "x" =
      applyOps (issueRequest ⟨[], 0⟩ "a" "hi").1 [] :=
  out_of_order_guard.2.2.2 ⟨[], 0⟩ "a" "hi" [] 0 "a" "x" (by decide) (by decide)

/-- C6: an `askInColumn colId text` call — in its optimistic-update phase, its
missing-snapshot fallback, its success-response phase and its failure phase —
relates the old and new `columns` arrays entrywise so that every column whose
id differs from `colId` is unchanged, and no column's `title` or
`contextBase` is ever modified. -/
theorem per_column_isolation :
    ∀ (s : AppState) (colId text : String),
      List.Forall₂ (colPreserved colId) s.columns (issueRequest s colId text).1.columns ∧
      (∀ (myReq : Nat) (answer : String),
        List.Forall₂ (colPreserved colId) s.columns
          (handleResponse s colId myReq answer).columns) ∧
      List.Forall₂ (colPreserved colId) s.columns (handleFailure s colId).columns := by
  intro s colId text
  refine ⟨?_, ?_, ?_⟩
  · simp only [issueRequest]
    split
    · exact forall2_colPreserved_refl colId s.columns
    · split
      · refine forall2_colPreserved_comp colId _ _ _
          (forall2_ite_map colId s.columns
            (fun c =>
              { c with chat := c.chat ++ [{ role := Role.user, text := jsTrim text }],
                       input := "", loading := true })
            (fun _ => rfl) (fun _ => rfl))
          (forall2_ite_map colId _
            (fun c => { c with loading := false })
            (fun _ => rfl) (fun _ => rfl))
      · exact forall2_ite_map colId s.columns
          (fun c =>
            { c with chat := c.chat ++ [{ role := Role.user, text := jsTrim text }],
                     input := "", loading := true })
          (fun _ => rfl) (fun _ => rfl)
  · intro myReq answer
    simp only [handleResponse]
    split
    · exact forall2_colPreserved_refl colId s.columns
    · exact forall2_ite_map colId s.columns
        (fun c =>
          { c with chat := c.chat ++ [{ role := Role.assistant, text := cleanAnswer answer }],
                   loading := false })
        (fun _ => rfl) (fun _ => rfl)
  · exact forall2_ite_map colId s.columns
      (fun c => { c with loading := false })
      (fun _ => rfl) (fun _ => rfl)

/-- Witness for C6 at a two-column state: asking in column "a" preserves
column "b" and all titles and context bases. -/
theorem per_column_isolation_witness :
    List.Forall₂ (colPreserved "a")
      [⟨"a", "Explain", "ctxA", [], "", false⟩, ⟨"b", "Perspective 2", "ctxB", [], "", false⟩]
      (issueRequest
        ⟨[⟨"a", "Explain", "ctxA", [], "", false⟩, ⟨"b", "Perspective 2", "ctxB", [], "", false⟩],
          0⟩ "a" "q").1.columns :=
  (per_column_isolation
      ⟨[⟨"a", "Explain", "ctxA", [], "", false⟩, ⟨"b", "Perspective 2", "ctxB", [], "", false⟩],
        0⟩ "a" "q").1

/-- C3 counterexample: a model output that parses as JSON but does not match
the fixed schema (an empty array) is nevertheless returned with status 200 by
both endpoints — the backend never revalidates the parsed value. -/
theorem schema_not_validated_counterexample :
    explainRespond (some (Json.arr [])) "[]" = { status := 200, body := Json.arr [] } ∧
    matchesExplainSchema (Json.arr []) = false ∧
    chatRespond (some (Json.arr [])) "[]" = { status := 200, body := Json.arr [] } ∧
    matchesChatSchema (Json.arr []) = false :=
  ⟨rfl, rfl, rfl, rfl⟩

/-- C3 (amended): the fixed schemas are forwarded to the model API inside the
requests, delegating enforcement to the model; the handlers themselves return
any JSON-parseable model output verbatim with status 200, including parsed
values that do not match the schema. -/
theorem parsed_output_returned_unvalidated :
    (∀ (j : Json) (raw : String),
        explainRespond (some j) raw = { status := 200, body := j } ∧
        chatRespond (some j) raw = { status := 200, body := j }) ∧
    (∀ (imageDataUrl : String) (instruction : Option String),
        (explainRequest imageDataUrl instruction).schema = explainSchemaJson) ∧
    (∀ (context question : String) (history : Option (List HistEntry)),
        (chatRequest context question history).schema = chatSchemaJson) ∧
    (∃ j : Json, (explainRespond (some j) "").status = 200 ∧ matchesExplainSchema j = false) :=
  ⟨fun _ _ => ⟨rfl, rfl⟩, fun _ _ => rfl, fun _ _ _ => rfl, ⟨Json.null, rfl, rfl⟩⟩

/-- C4: both endpoints answer 502 with the fixed error message and the raw
model output exactly when the model's `output_text` fails to parse as JSON;
when it parses, the parsed value is returned with status 200. -/
theorem invalid_json_502_iff :
    ∀ (parseResult : Option Json) (raw : String),
      ((explainRespond parseResult raw = { status := 502, body := modelErrorBody raw } ∧
        chatRespond parseResult raw = { status := 502, body := modelErrorBody raw }) ↔
        parseResult = none) ∧
      (∀ j, parseResult = some j →
        explainRespond parseResult raw = { status := 200, body := j } ∧
        chatRespond parseResult raw = { status := 200, body := j }) := by
  intro pr raw
  refine ⟨⟨?_, ?_⟩, ?_⟩
  · rintro ⟨h, _⟩
    cases pr with
    | none => rfl
    | some j =>
        have hs : (200 : Nat) = 502 := congrArg HttpResponse.status h
        exact absurd hs (by decide)
  · rintro rfl
    exact ⟨rfl, rfl⟩
  · rintro j rfl
    exact ⟨rfl, rfl⟩

/-- Witness for C4: a non-JSON model output yields the 502 error body on both
endpoints. -/
theorem invalid_json_502_iff_witness :
    explainRespond none "oops" = { status := 502, body := modelErrorBody "oops" } ∧
    chatRespond none "oops" = { status := 502, body := modelErrorBody "oops" } :=
  ((invalid_json_502_iff none "oops").1).mpr rfl

/-- C7: the /api/explain prompt text is the fixed system prompt, with the
additional-instruction suffix appended exactly when the stringified, trimmed
instruction is non-empty; the image data URL is forwarded unmodified. -/
theorem explain_prompt_shaping :
    ∀ (imageDataUrl : String) (instruction : Option String),
      (explainRequest imageDataUrl instruction).imageUrl = imageDataUrl ∧
      ((userInstructionOf instruction).length > 0 →
        (explainRequest imageDataUrl instruction).text =
          explainSystemPrompt ++
            ("\n\nAdditional user instruction:\n" ++ userInstructionOf instruction)) ∧
      (¬ (userInstructionOf instruction).length > 0 →
        (explainRequest imageDataUrl instruction).text = explainSystemPrompt) := by
  intro img instr
  refine ⟨rfl, ?_, ?_⟩
  · intro h
    simp only [explainRequest, explainPromptText]
    rw [if_pos h]
  · intro h
    simp only [explainRequest, explainPromptText]
    rw [if_neg h]
    simp

/-- Witness for C7: a padded instruction is trimmed and appended after the
fixed suffix. -/
theorem explain_prompt_shaping_witness :
    (explainRequest "data:image/png;base64,AAA" (some " x ")).text =
      explainSystemPrompt ++
        ("\n\nAdditional user instruction:\n" ++ userInstructionOf (some " x ")) :=
  (explain_prompt_shaping "data:image/png;base64,AAA" (some " x ")).2.1 (by decide)

/-- C8: the /api/chat model input is at most the last 30 history entries
followed by the question (hence at most 31 entries); a missing or non-array
history is treated as empty; each forwarded entry has role assistant exactly
when the incoming role is the string "assistant" and user otherwise, and its
content is the entry's text coerced to a string (empty when missing). -/
theorem chat_history_truncation :
    (∀ (history : Option (List HistEntry)) (question : String),
        chatInputList history question =
          chatTurns history ++ [{ role := Role.user, content := question }] ∧
        (chatTurns history).length ≤ 30 ∧
        (chatInputList history question).length ≤ 31) ∧
    (∀ history : Option (List HistEntry),
        chatTurns history = (truncHistory history).map coerceTurn ∧
        List.IsSuffix (truncHistory history) (history.getD [])) ∧
    chatTurns none = [] ∧
    (∀ m : HistEntry,
        ((coerceTurn m).role = Role.assistant ↔ m.role? = some "assistant") ∧
        (coerceTurn m).content = m.text?.getD "") := by
  have hlen : ∀ history : Option (List HistEntry), (chatTurns history).length ≤ 30 := by
    intro h
    simp only [chatTurns, truncHistory, List.length_map, List.length_drop]
    omega
  refine ⟨?_, ?_, rfl, ?_⟩
  · intro h q
    refine ⟨rfl, hlen h, ?_⟩
    have := hlen h
    simp only [chatInputList, List.length_append, List.length_cons, List.length_nil]
    omega
  · intro h
    exact ⟨rfl, List.drop_suffix _ _⟩
  · intro m
    refine ⟨⟨?_, ?_⟩, rfl⟩
    · intro hrole
      by_contra hne
      simp only [coerceTurn] at hrole
      rw [if_neg hne] at hrole
      exact Role.noConfusion hrole
    · intro hr
      simp only [coerceTurn]
      rw [if_pos hr]

/-- Witness for C8: an entry with role "assistant" is forwarded with the
assistant role. -/
theorem chat_history_truncation_witness :
    (coerceTurn ⟨some "assistant", some "hello"⟩).role = Role.assistant :=
  (chat_history_truncation.2.2.2 ⟨some "assistant", some "hello"⟩).1.mpr rfl

/-- C9: /api/explain answers 400 without calling the model API exactly when
`imageDataUrl` is missing/non-string or does not start with "data:image/"
(the falsy empty string falls under the latter); /api/chat answers 400
without calling the model API exactly when `context` or `question` is
missing, falsy or non-string. -/
theorem bad_request_before_model_call :
    (∀ (imageDataUrl instruction : Option String),
        ((imageDataUrl = none ∨
            ∃ s, imageDataUrl = some s ∧ ¬ s.startsWith "data:image/") ↔
          ∃ msg, explainHandler imageDataUrl instruction =
            HandlerOutcome.earlyResponse 400 msg)) ∧
    (∀ (context question : Option String) (history : Option (List HistEntry)),
        ((context = none ∨ context = some "" ∨ question = none ∨ question = some "") ↔
          ∃ msg, chatHandler context question history =
            HandlerOutcome.earlyResponse 400 msg)) := by
  constructor
  · intro img instr
    constructor
    · rintro (rfl | ⟨s, rfl, hs⟩)
      · exact ⟨_, rfl⟩
      · simp only [explainHandler]
        by_cases he : s = ""
        · rw [if_pos he]
          exact ⟨_, rfl⟩
        · rw [if_neg he, if_pos hs]
          exact ⟨_, rfl⟩
    · rintro ⟨msg, hmsg⟩
      cases img with
      | none => exact Or.inl rfl
      | some s =>
          refine Or.inr ⟨s, rfl, ?_⟩
          intro hs
          simp only [explainHandler] at hmsg
          by_cases he : s = ""
          · subst he
            exact absurd hs (by decide)
          · rw [if_neg he, if_neg (not_not_intro hs)] at hmsg
            exact HandlerOutcome.noConfusion hmsg
  · intro ctx q hist
    constructor
    · rintro (rfl | rfl | rfl | rfl)
      · exact ⟨_, rfl⟩
      · simp only [chatHandler]
        exact ⟨_, if_pos trivial⟩
      · cases ctx with
        | none => exact ⟨_, rfl⟩
        | some c =>
            simp only [chatHandler]
            by_cases hc : c = ""
            · rw [if_pos hc]
              exact ⟨_, rfl⟩
            · rw [if_neg hc]
              exact ⟨_, rfl⟩
      · cases ctx with
        | none => exact ⟨_, rfl⟩
        | some c =>
            simp only [chatHandler]
            by_cases hc : c = ""
            · rw [if_pos hc]
              exact ⟨_, rfl⟩
            · rw [if_neg hc]
              exact ⟨_, if_pos trivial⟩
    · rintro ⟨msg, hmsg⟩
      cases ctx with
      | none => exact Or.inl rfl
      | some c =>
          by_cases hc : c = ""
          · subst hc
            exact Or.inr (Or.inl rfl)
          · cases q with
            | none => exact Or.inr (Or.inr (Or.inl rfl))
            | some qq =>
                by_cases hq : qq = ""
                · subst hq
                  exact Or.inr (Or.inr (Or.inr rfl))
                · simp only [chatHandler] at hmsg
                  rw [if_neg hc, if_neg hq] at hmsg
                  exact HandlerOutcome.noConfusion hmsg

/-- Witness for C9: a body with no image data URL and a body with no context
are both rejected with status 400 before any model call. -/
theorem bad_request_before_model_call_witness :
    (∃ msg, explainHandler none none = HandlerOutcome.earlyResponse 400 msg) ∧
    (∃ msg, chatHandler none (some "hi") none = HandlerOutcome.earlyResponse 400 msg) :=
  ⟨(bad_request_before_model_call.1 none none).mp (Or.inl rfl),
   (bad_request_before_model_call.2 none (some "hi") none).mp (Or.inl rfl)⟩
